import Mathlib

/-!
Shallow embedding of `src/lambda/s3_postgres_lambda/add_lambda_function.py`
(the ingestion-coordinator Lambda) and proofs of the spec's testable
properties about it.

The Python module reacts to three shapes of events:
  * a teardown event (`event.get('RequestType') == 'Delete'`): no-op;
  * an S3 change notification (`'Records' in event and event['Records']`):
    decode the first record's key, probe object existence, optionally delete
    prior database rows, then submit one Batch job;
  * anything else (bulk trigger): list the configured bucket and submit one
    Batch job per non-empty object.

External services (environment variables, S3 head/list, psycopg2, Batch
submit) are modelled as components of a `World` record; the handler is a
pure function of the world and the event, returning the effects it issued
(deletion requests, job submissions, existence probes) together with either
a response or the exception that propagated.
-/

namespace AddLambda

/-! ### String helpers mirroring the Python library calls

`urllib.parse.unquote` is modelled byte-for-byte on ASCII input: each
`%XY` with two hex digits becomes the character with code `16*X + Y`, and
malformed escapes are left as-is (Python's multi-byte UTF-8 recombination
is not modelled; every key in this development is ASCII).
-/

def hexVal (c : Char) : Option Nat :=
  if '0' ≤ c ∧ c ≤ '9' then some (c.toNat - '0'.toNat)
  else if 'a' ≤ c ∧ c ≤ 'f' then some (c.toNat - 'a'.toNat + 10)
  else if 'A' ≤ c ∧ c ≤ 'F' then some (c.toNat - 'A'.toNat + 10)
  else none

def unquoteAux : List Char → List Char
  | [] => []
  | '%' :: a :: b :: rest =>
    match hexVal a, hexVal b with
    | some x, some y => Char.ofNat (16 * x + y) :: unquoteAux rest
    | _, _ => '%' :: unquoteAux (a :: b :: rest)
  | c :: rest => c :: unquoteAux rest

/-- Model of `urllib.parse.unquote` (line 71). Does not touch `+`. -/
def urllib_parse_unquote (s : String) : String :=
  ⟨unquoteAux s.data⟩

/-- Model of `.replace('+', ' ')`: every `+` becomes one space. -/
def replacePlusAux : List Char → List Char
  | [] => []
  | '+' :: rest => ' ' :: replacePlusAux rest
  | c :: rest => c :: replacePlusAux rest

def str_replace_plus (s : String) : String :=
  ⟨replacePlusAux s.data⟩

/-- Model of `.replace('%20', ' ')`: every literal three-character
sequence `%20` becomes one space, scanning left to right. -/
def replacePct20Aux : List Char → List Char
  | [] => []
  | '%' :: '2' :: '0' :: rest => ' ' :: replacePct20Aux rest
  | c :: rest => c :: replacePct20Aux rest

def str_replace_pct20 (s : String) : String :=
  ⟨replacePct20Aux s.data⟩

/-- Lines 71-72: `urllib.parse.unquote` then `.replace('+', ' ').replace('%20', ' ')`. -/
def decoded_with_spaces (raw : String) : String :=
  str_replace_pct20 (str_replace_plus (urllib_parse_unquote raw))

/-- Model of `os.path.basename` on POSIX: the suffix after the last `/`. -/
def os_path_basename (s : String) : String :=
  ⟨(s.data.reverse.takeWhile (fun c => c ≠ '/')).reverse⟩

/-- Model of Python `json.dumps` applied to a plain string: wrap in double
quotes, escaping backslash and double quote (the only escapes the messages
in this module could need). -/
def jsonEscapeChar (c : Char) : List Char :=
  if c = '"' then ['\\', '"']
  else if c = '\\' then ['\\', '\\']
  else [c]

def json_dumps (s : String) : String :=
  ⟨'"' :: ((s.data.map jsonEscapeChar).flatten ++ ['"'])⟩

/-! ### The deletion executor `delete_from_postgres` (lines 19-53)

The body is `connection = None; try: connect; cursor(); execute; commit
except: log finally: if cursor: cursor.close(); if connection:
connection.close()`.  `DBStep` names the first external call inside the
`try` block that fails (or `ok` when none does).  Crucially the local
`cursor` is NOT initialised before the `try`, so when `connect` or
`cursor()` fails, the `finally` block's `if cursor:` itself raises
`UnboundLocalError`; that exception propagates to the caller and the
`if connection:` line is never reached. -/

inductive DBStep
  | connectFail
  | cursorFail
  | executeFail
  | commitFail
  | ok
deriving DecidableEq, Repr

/-- Observable outcome of one run of `delete_from_postgres`:
whether an exception escaped the function, whether the `except` clause
logged an error, and which of the two resources got closed. -/
structure DeleteRun where
  raised : Bool
  errorLogged : Bool
  cursorClosed : Bool
  connectionClosed : Bool
deriving DecidableEq, Repr

/-- The `finally` block (lines 45-49), entered with: was the local `cursor`
ever assigned, was `connection` assigned a live connection, and did the
`except` clause log.  `if cursor:` with `cursor` unassigned raises
`UnboundLocalError` immediately, so nothing is closed and the error
propagates; otherwise both guarded closes run (a psycopg2 cursor and an
open connection are truthy). -/
def finallyBlock (cursorBound connectionLive logged : Bool) : DeleteRun :=
  if cursorBound then
    { raised := false, errorLogged := logged,
      cursorClosed := true, connectionClosed := connectionLive }
  else
    { raised := true, errorLogged := logged,
      cursorClosed := false, connectionClosed := false }

/-- Shallow embedding of `delete_from_postgres` (lines 19-53) as a function
of which step inside the `try` fails first.  Every failure is caught by the
`except (Exception, psycopg2.DatabaseError)` clause (line 42), which logs;
control then reaches the `finally` block with the binding state the failed
prefix left behind. -/
def delete_from_postgres : DBStep → DeleteRun
  | .connectFail => finallyBlock false false true
  | .cursorFail => finallyBlock false true true
  | .executeFail => finallyBlock true true true
  | .commitFail => finallyBlock true true true
  | .ok => finallyBlock true true false

/-! ### Events, worlds, requests -/

/-- One entry of `event['Records']`: the fields the handler reads
(`s3.bucket.name` and `s3.object.key`). -/
structure S3Record where
  bucket : String
  key : String
deriving DecidableEq, Repr

/-- The event shapes the handler distinguishes.  `requestTypeDelete`
is `event.get('RequestType') == 'Delete'` (line 57); `records` is
`event['Records']`, with `[]` covering both an absent and an empty list
(the line 65 test `'Records' in event and event['Records']`). -/
structure Event where
  requestTypeDelete : Bool
  records : List S3Record
deriving DecidableEq, Repr

/-- Result of `s3_client.head_object` as consumed by `does_object_exist`
(lines 120-128): success, a ClientError with code 404, or any other
failure (re-raised on line 128). -/
inductive HeadResult
  | found
  | notFound404
  | otherFailure
deriving DecidableEq, Repr

/-- An exception escaping the handler. -/
inductive HandlerError
  | keyError (name : String)
  | probeError
  | submitError
deriving DecidableEq, Repr

/-- The external world an invocation runs against:
`env` is `os.environ` (`none` = variable absent, so `os.environ[n]`
raises KeyError); `head_object` gives the probe outcome per bucket/key;
`list_objects` gives `response['Contents']` per bucket and key prefix
(`none` = key absent from the response); `submit_job` returns the job id
Batch assigns per S3 URL (`none` = `submit_job` raises); `db` is the
behaviour of the PostgreSQL connection inside `delete_from_postgres`;
`app_script` is the script text read at module load (lines 15-16). -/
structure World where
  env : String → Option String
  head_object : String → String → HeadResult
  list_objects : String → String → Option (List (String × Nat))
  submit_job : String → Option String
  db : DBStep
  app_script : String

/-- `os.environ[name]`: value or KeyError. -/
def envGet (w : World) (name : String) : Except HandlerError String :=
  match w.env name with
  | some v => Except.ok v
  | none => Except.error (HandlerError.keyError name)

/-- The parameters of the `delete_from_postgres` call issued on line 85. -/
structure DeletionRequest where
  db_name : String
  user : String
  password : String
  host : String
  port : String
  table_name : String
  filename : String
deriving DecidableEq, Repr

/-- One accepted `batch_client.submit_job` call (lines 151-175): the
queue, definition, environment overrides, and the job id Batch returned. -/
structure JobSubmission where
  s3_url : String
  jobQueue : String
  jobDefinition : String
  environment : List (String × String)
  jobId : String
deriving DecidableEq, Repr

/-- The Lambda's return value. -/
structure Response where
  statusCode : Nat
  body : String
deriving DecidableEq, Repr

/-- Everything one invocation did: deletion calls issued (with the run of
each), job submissions accepted by Batch, existence probes performed, and
the final response or propagated exception. -/
structure RunResult where
  deletions : List DeletionRequest
  deleteRuns : List DeleteRun
  jobs : List JobSubmission
  probes : List (String × String)
  result : Except HandlerError Response
deriving Repr

/-! ### `add_files` (lines 130-181) -/

/-- Shallow embedding of `add_files`: read each environment variable in
source order (any miss raises KeyError at that point), then call
`batch_client.submit_job`; a submit failure propagates.  On success the
function returns the submission it made and the 200 response whose body
carries the Batch job id (lines 178-181). -/
def add_files (w : World) (s3_url : String) :
    Except HandlerError (JobSubmission × Response) := do
  let aws_access_key ← envGet w "MY_AWS_ACCESS_KEY_ID"
  let aws_secret_key ← envGet w "MY_AWS_SECRET_ACCESS_KEY"
  let db_name ← envGet w "POSTGRES_DB_NAME"
  let user ← envGet w "POSTGRES_USER"
  let password ← envGet w "POSTGRES_PASSWORD"
  let host ← envGet w "POSTGRES_HOST"
  let port ← envGet w "POSTGRES_PORT"
  let table_name ← envGet w "POSTGRES_TABLE_NAME"
  let embedding_provider ← envGet w "EMBEDDING_PROVIDER"
  let embedding_model_name ← envGet w "EMBEDDING_MODEL_NAME"
  let embedding_provider_api_key ← envGet w "EMBEDDING_PROVIDER_API_KEY"
  let chunking_strategy ← envGet w "CHUNKING_STRATEGY"
  let chunking_max_characters ← envGet w "CHUNKING_MAX_CHARACTERS"
  let local_file_download_dir := "/tmp/"
  let job_queue ← envGet w "JOB_QUEUE"
  let job_definition ← envGet w "JOB_DEFINITION"
  match w.submit_job s3_url with
  | none => Except.error HandlerError.submitError
  | some jobId =>
    Except.ok
      ({ s3_url := s3_url
         jobQueue := job_queue
         jobDefinition := job_definition
         environment :=
           [("AWS_S3_URL", s3_url),
            ("AWS_ACCESS_KEY_ID", aws_access_key),
            ("AWS_SECRET_ACCESS_KEY", aws_secret_key),
            ("POSTGRES_DB_NAME", db_name),
            ("POSTGRES_USER", user),
            ("POSTGRES_PASSWORD", password),
            ("POSTGRES_HOST", host),
            ("POSTGRES_PORT", port),
            ("POSTGRES_TABLE_NAME", table_name),
            ("EMBEDDING_PROVIDER", embedding_provider),
            ("EMBEDDING_MODEL_NAME", embedding_model_name),
            ("EMBEDDING_PROVIDER_API_KEY", embedding_provider_api_key),
            ("CHUNKING_STRATEGY", chunking_strategy),
            ("CHUNKING_MAX_CHARACTERS", chunking_max_characters),
            ("LOCAL_FILE_DOWNLOAD_DIR", local_file_download_dir),
            ("APP_SCRIPT", w.app_script)]
         jobId := jobId },
       { statusCode := 200, body := json_dumps ("Started Batch Job: " ++ jobId) })

/-! ### The bulk-listing loop (lines 100-111) -/

/-- The `for item in response['Contents']` loop: size-0 entries are
skipped (`continue`, line 109); otherwise `add_files` runs for
`s3://bucket/key` and its return value is discarded (line 111).  An
exception from `add_files` aborts the loop; the jobs accepted before
the failure stay issued. -/
def processContents (w : World) (bucket_name : String) :
    List (String × Nat) → List JobSubmission × Option HandlerError
  | [] => ([], none)
  | (document_key, size) :: rest =>
    if size = 0 then processContents w bucket_name rest
    else
      match add_files w ("s3://" ++ bucket_name ++ "/" ++ document_key) with
      | Except.error e => ([], some e)
      | Except.ok (j, _resp) =>
        let tail := processContents w bucket_name rest
        (j :: tail.1, tail.2)

/-- The six environment reads on lines 78-83, in source order. -/
def readPostgresEnv (w : World) :
    Except HandlerError (String × String × String × String × String × String) := do
  let db_name ← envGet w "POSTGRES_DB_NAME"
  let user ← envGet w "POSTGRES_USER"
  let password ← envGet w "POSTGRES_PASSWORD"
  let host ← envGet w "POSTGRES_HOST"
  let port ← envGet w "POSTGRES_PORT"
  let table_name ← envGet w "POSTGRES_TABLE_NAME"
  Except.ok (db_name, user, password, host, port, table_name)

def emptyRun (r : Except HandlerError Response) : RunResult :=
  { deletions := [], deleteRuns := [], jobs := [], probes := [], result := r }

/-! ### `lambda_handler` (lines 55-118) -/

/-- Shallow embedding of `lambda_handler`.

* Teardown (lines 57-62): immediate 200, nothing issued.
* S3 event (lines 65-89): take the first record, decode the key
  (lines 71-72), build the S3 URL (line 73), probe existence with the
  decoded key (line 75; a non-404 probe failure propagates out of
  `does_object_exist`, line 128).  When the object exists, read the six
  PostgreSQL variables (lines 78-83, KeyError propagates), then call
  `delete_from_postgres` with the basename of the decoded key inside the
  `try:` of lines 84-87, which catches every exception the call raises —
  so its outcome never affects control flow.  Either way, finish with
  `add_files(s3_url)` (line 89).
* Bulk (lines 91-118): read the bucket name (KeyError propagates), read
  the optional prefix with default, list objects, run the loop, and
  return the fixed 200 response. -/
def lambda_handler (w : World) (event : Event) : RunResult :=
  if event.requestTypeDelete then
    emptyRun (Except.ok
      { statusCode := 200, body := json_dumps "Delete event - no action taken." })
  else
    match event.records with
    | record :: _ =>
      let bucket_name := record.bucket
      let document_key := record.key
      let dks := decoded_with_spaces document_key
      let s3_url := "s3://" ++ bucket_name ++ "/" ++ dks
      let probe := [(bucket_name, dks)]
      match w.head_object bucket_name dks with
      | HeadResult.otherFailure =>
        { deletions := [], deleteRuns := [], jobs := [], probes := probe,
          result := Except.error HandlerError.probeError }
      | HeadResult.notFound404 =>
        match add_files w s3_url with
        | Except.error e =>
          { deletions := [], deleteRuns := [], jobs := [], probes := probe,
            result := Except.error e }
        | Except.ok (j, resp) =>
          { deletions := [], deleteRuns := [], jobs := [j], probes := probe,
            result := Except.ok resp }
      | HeadResult.found =>
        match readPostgresEnv w with
        | Except.error e =>
          { deletions := [], deleteRuns := [], jobs := [], probes := probe,
            result := Except.error e }
        | Except.ok (db_name, user, password, host, port, table_name) =>
          let dreq : DeletionRequest :=
            { db_name := db_name, user := user, password := password,
              host := host, port := port, table_name := table_name,
              filename := os_path_basename dks }
          let drun := delete_from_postgres w.db
          match add_files w s3_url with
          | Except.error e =>
            { deletions := [dreq], deleteRuns := [drun], jobs := [],
              probes := probe, result := Except.error e }
          | Except.ok (j, resp) =>
            { deletions := [dreq], deleteRuns := [drun], jobs := [j],
              probes := probe, result := Except.ok resp }
    | [] =>
      match envGet w "S3_BUCKET_NAME" with
      | Except.error e => emptyRun (Except.error e)
      | Except.ok bucket_name =>
        let pfx := (w.env "S3_NOTIFICATION_PREFIX").getD ""
        match w.list_objects bucket_name pfx with
        | none =>
          emptyRun (Except.ok
            { statusCode := 200, body := json_dumps "Processed existing items." })
        | some contents =>
          let looped := processContents w bucket_name contents
          { deletions := [], deleteRuns := [], jobs := looped.1, probes := [],
            result :=
              match looped.2 with
              | some e => Except.error e
              | none =>
                Except.ok
                  { statusCode := 200, body := json_dumps "Processed existing items." } }

/-- Substring test used to state the key-shape hypotheses of the decoding
claims. -/
def containsSeq (pat : List Char) : List Char → Bool
  | [] => pat.isPrefixOf []
  | c :: rest => pat.isPrefixOf (c :: rest) || containsSeq pat rest

/-! ### Concrete worlds used to instantiate the theorems -/

def testVals : String → String := fun _ => "v"

/-- A fully configured world where every object exists and Batch accepts
every submission with job id `J`. -/
def testWorld : World :=
  { env := fun n => some (testVals n)
    head_object := fun _ _ => HeadResult.found
    list_objects := fun _ _ => none
    submit_job := fun _ => some "J"
    db := DBStep.ok
    app_script := "S" }

def testWorldNotFound : World :=
  { testWorld with head_object := fun _ _ => HeadResult.notFound404 }

def testWorldProbeFail : World :=
  { testWorld with head_object := fun _ _ => HeadResult.otherFailure }

/-! ### Helper lemmas -/

lemma envGet_total (w : World) (vals : String → String)
    (henv : ∀ n, w.env n = some (vals n)) (n : String) :
    envGet w n = Except.ok (vals n) := by
  simp [envGet, henv]

lemma add_files_total (w : World) (vals : String → String) (url jid : String)
    (henv : ∀ n, w.env n = some (vals n))
    (hsub : w.submit_job url = some jid) :
    ∃ j : JobSubmission,
      add_files w url =
        Except.ok (j, { statusCode := 200,
                        body := json_dumps ("Started Batch Job: " ++ jid) }) ∧
      j.s3_url = url := by
  simp only [add_files, envGet_total w vals henv, hsub, bind, Except.bind]
  exact ⟨_, rfl, rfl⟩

lemma readPostgresEnv_total (w : World) (vals : String → String)
    (henv : ∀ n, w.env n = some (vals n)) :
    readPostgresEnv w =
      Except.ok (vals "POSTGRES_DB_NAME", vals "POSTGRES_USER",
        vals "POSTGRES_PASSWORD", vals "POSTGRES_HOST", vals "POSTGRES_PORT",
        vals "POSTGRES_TABLE_NAME") := by
  simp only [readPostgresEnv, envGet_total w vals henv, bind, Except.bind]


/-- The storage-change event whose first record carries the given bucket
and raw key. -/
def s3Event (bucket key : String) (rest : List S3Record) : Event :=
  { requestTypeDelete := false, records := ⟨bucket, key⟩ :: rest }

/-- The bulk-trigger event: not a teardown, no records. -/
def bulkEvent : Event :=
  { requestTypeDelete := false, records := [] }

/-- The teardown event. -/
def teardownEvent : Event :=
  { requestTypeDelete := true, records := [] }

/-- The fixed response of the teardown path (lines 59-62). -/
def teardownResponse : Response :=
  { statusCode := 200, body := json_dumps "Delete event - no action taken." }

/-- The fixed response of the bulk path (lines 115-118). -/
def bulkResponse : Response :=
  { statusCode := 200, body := json_dumps "Processed existing items." }

/-- The 200 response of a successful `add_files` call (lines 178-181). -/
def startedResponse (jid : String) : Response :=
  { statusCode := 200, body := json_dumps ("Started Batch Job: " ++ jid) }

/-! ### Claim theorems -/

/-- C6: for every teardown event (one whose request type signals stack
deprovisioning), the handler issues no DeletionRequest and no
ProcessingJobRequest and returns success immediately. -/
theorem C6_teardown_noop (w : World) (event : Event)
    (h : event.requestTypeDelete = true) :
    lambda_handler w event =
      { deletions := [], deleteRuns := [], jobs := [], probes := [],
        result := Except.ok teardownResponse } := by
  simp [lambda_handler, h, emptyRun, teardownResponse]

/-- Witness for C6 at a concrete teardown event. -/
theorem C6_teardown_noop_witness :
    lambda_handler testWorld teardownEvent =
      { deletions := [], deleteRuns := [], jobs := [], probes := [],
        result := Except.ok teardownResponse } :=
  C6_teardown_noop testWorld teardownEvent rfl

/-- C1: for every storage-change event whose first record names a key that
currently exists in the bucket (probe of the decoded key says found), the
handler issues exactly one DeletionRequest whose filename is the basename
of the decoded key; when the decoded key does not exist, it issues no
DeletionRequest; in both cases it issues exactly one ProcessingJobRequest
for the object's storage URI.  (Environment complete, Batch accepts.) -/
theorem C1_change_event_requests (w : World) (vals : String → String)
    (bucket key jid : String) (rest : List S3Record)
    (henv : ∀ n, w.env n = some (vals n))
    (hsub : w.submit_job ("s3://" ++ bucket ++ "/" ++ decoded_with_spaces key)
      = some jid) :
    (w.head_object bucket (decoded_with_spaces key) = HeadResult.found →
      (lambda_handler w (s3Event bucket key rest)).deletions.map
          DeletionRequest.filename
        = [os_path_basename (decoded_with_spaces key)] ∧
      (lambda_handler w (s3Event bucket key rest)).jobs.map JobSubmission.s3_url
        = ["s3://" ++ bucket ++ "/" ++ decoded_with_spaces key]) ∧
    (w.head_object bucket (decoded_with_spaces key) = HeadResult.notFound404 →
      (lambda_handler w (s3Event bucket key rest)).deletions = [] ∧
      (lambda_handler w (s3Event bucket key rest)).jobs.map JobSubmission.s3_url
        = ["s3://" ++ bucket ++ "/" ++ decoded_with_spaces key]) := by
  obtain ⟨j, hj, hjurl⟩ := add_files_total w vals _ jid henv hsub
  constructor
  · intro hfound
    simp [lambda_handler, s3Event, hfound, readPostgresEnv_total w vals henv,
      hj, hjurl]
  · intro hnf
    simp [lambda_handler, s3Event, hnf, hj, hjurl]

/-- Witness for C1 at a concrete world and key. -/
theorem C1_change_event_requests_witness :
    (testWorld.head_object "docs" (decoded_with_spaces "dir/rep+v%202.pdf")
        = HeadResult.found →
      (lambda_handler testWorld (s3Event "docs" "dir/rep+v%202.pdf" [])).deletions.map
          DeletionRequest.filename
        = [os_path_basename (decoded_with_spaces "dir/rep+v%202.pdf")] ∧
      (lambda_handler testWorld (s3Event "docs" "dir/rep+v%202.pdf" [])).jobs.map
          JobSubmission.s3_url
        = ["s3://" ++ "docs" ++ "/" ++ decoded_with_spaces "dir/rep+v%202.pdf"]) ∧
    (testWorld.head_object "docs" (decoded_with_spaces "dir/rep+v%202.pdf")
        = HeadResult.notFound404 →
      (lambda_handler testWorld (s3Event "docs" "dir/rep+v%202.pdf" [])).deletions
        = [] ∧
      (lambda_handler testWorld (s3Event "docs" "dir/rep+v%202.pdf" [])).jobs.map
          JobSubmission.s3_url
        = ["s3://" ++ "docs" ++ "/" ++ decoded_with_spaces "dir/rep+v%202.pdf"]) :=
  C1_change_event_requests testWorld testVals "docs" "dir/rep+v%202.pdf" "J" []
    (fun _ => rfl) rfl

/-- C2: for every notification key containing a literal plus or a literal
percent-two-zero sequence, the decoded key used for the existence probe,
for the deletion filename, and for the job's storage URI is obtained by
first percent-decoding the raw key and then replacing every literal plus
and every literal percent-two-zero with a single space. -/
theorem C2_decoded_key_usage (w : World) (vals : String → String)
    (bucket key jid : String) (rest : List S3Record)
    (henv : ∀ n, w.env n = some (vals n))
    (hsub : w.submit_job ("s3://" ++ bucket ++ "/"
        ++ str_replace_pct20 (str_replace_plus (urllib_parse_unquote key)))
      = some jid)
    (_hseq : containsSeq "+".data key.data = true
      ∨ containsSeq "%20".data key.data = true) :
    (lambda_handler w (s3Event bucket key rest)).probes
      = [(bucket, str_replace_pct20 (str_replace_plus (urllib_parse_unquote key)))] ∧
    (w.head_object bucket (decoded_with_spaces key) = HeadResult.found →
      (lambda_handler w (s3Event bucket key rest)).deletions.map
          DeletionRequest.filename
        = [os_path_basename
            (str_replace_pct20 (str_replace_plus (urllib_parse_unquote key)))]) ∧
    (w.head_object bucket (decoded_with_spaces key) ≠ HeadResult.otherFailure →
      (lambda_handler w (s3Event bucket key rest)).jobs.map JobSubmission.s3_url
        = ["s3://" ++ bucket ++ "/"
            ++ str_replace_pct20 (str_replace_plus (urllib_parse_unquote key))]) := by
  have hsub' : w.submit_job ("s3://" ++ bucket ++ "/" ++ decoded_with_spaces key)
      = some jid := hsub
  obtain ⟨j, hj, hjurl⟩ := add_files_total w vals _ jid henv hsub'
  rw [show str_replace_pct20 (str_replace_plus (urllib_parse_unquote key))
      = decoded_with_spaces key from rfl]
  refine ⟨?_, ?_, ?_⟩
  · cases hprobe : w.head_object bucket (decoded_with_spaces key) with
    | found =>
      simp [lambda_handler, s3Event, hprobe,
        readPostgresEnv_total w vals henv, hj]
    | notFound404 => simp [lambda_handler, s3Event, hprobe, hj]
    | otherFailure => simp [lambda_handler, s3Event, hprobe]
  · intro hfound
    simp [lambda_handler, s3Event, hfound,
      readPostgresEnv_total w vals henv, hj]
  · intro hne
    cases hprobe : w.head_object bucket (decoded_with_spaces key) with
    | found =>
      simp [lambda_handler, s3Event, hprobe, readPostgresEnv_total w vals henv,
        hj, hjurl]
    | notFound404 =>
      simp [lambda_handler, s3Event, hprobe, hj, hjurl]
    | otherFailure => exact absurd hprobe hne

/-- Witness for C2 at a concrete key containing both sequences. -/
theorem C2_decoded_key_usage_witness :
    (lambda_handler testWorld (s3Event "docs" "a+b%20c%2Bd.pdf" [])).probes
      = [("docs", str_replace_pct20
            (str_replace_plus (urllib_parse_unquote "a+b%20c%2Bd.pdf")))] ∧
    (testWorld.head_object "docs" (decoded_with_spaces "a+b%20c%2Bd.pdf")
        = HeadResult.found →
      (lambda_handler testWorld (s3Event "docs" "a+b%20c%2Bd.pdf" [])).deletions.map
          DeletionRequest.filename
        = [os_path_basename (str_replace_pct20
            (str_replace_plus (urllib_parse_unquote "a+b%20c%2Bd.pdf")))]) ∧
    (testWorld.head_object "docs" (decoded_with_spaces "a+b%20c%2Bd.pdf")
        ≠ HeadResult.otherFailure →
      (lambda_handler testWorld (s3Event "docs" "a+b%20c%2Bd.pdf" [])).jobs.map
          JobSubmission.s3_url
        = ["s3://" ++ "docs" ++ "/" ++ str_replace_pct20
            (str_replace_plus (urllib_parse_unquote "a+b%20c%2Bd.pdf"))]) :=
  C2_decoded_key_usage testWorld testVals "docs" "a+b%20c%2Bd.pdf" "J" []
    (fun _ => rfl) rfl (by decide)

/-- C4: when the object exists and the deletion step fails in any way
(the call raises out of `delete_from_postgres`, or the database reported
an error that was logged), the ProcessingJobRequest is still issued and
the invocation still returns the job's 200 response: the `try`/`except`
of lines 84-87 makes the submission independent of the deletion outcome. -/
theorem C4_delete_failure_still_submits (w : World) (vals : String → String)
    (bucket key jid : String) (rest : List S3Record) (step : DBStep)
    (henv : ∀ n, w.env n = some (vals n))
    (hsub : w.submit_job ("s3://" ++ bucket ++ "/" ++ decoded_with_spaces key)
      = some jid)
    (hfound : w.head_object bucket (decoded_with_spaces key) = HeadResult.found)
    (_hfail : (delete_from_postgres step).raised = true
      ∨ (delete_from_postgres step).errorLogged = true) :
    (lambda_handler { w with db := step } (s3Event bucket key rest)).deleteRuns
      = [delete_from_postgres step] ∧
    (lambda_handler { w with db := step } (s3Event bucket key rest)).jobs.map
        JobSubmission.s3_url
      = ["s3://" ++ bucket ++ "/" ++ decoded_with_spaces key] ∧
    (lambda_handler { w with db := step } (s3Event bucket key rest)).result
      = Except.ok (startedResponse jid) := by
  obtain ⟨j, hj, hjurl⟩ :=
    add_files_total { w with db := step } vals
      ("s3://" ++ bucket ++ "/" ++ decoded_with_spaces key) jid henv hsub
  refine ⟨?_, ?_, ?_⟩ <;>
    simp [lambda_handler, s3Event, hfound, startedResponse,
      readPostgresEnv_total { w with db := step } vals henv, hj, hjurl]

/-- Witness for C4 with a connect failure (which even escapes the callee). -/
theorem C4_delete_failure_still_submits_witness :
    (lambda_handler { testWorld with db := DBStep.connectFail }
        (s3Event "docs" "x.pdf" [])).deleteRuns
      = [delete_from_postgres DBStep.connectFail] ∧
    (lambda_handler { testWorld with db := DBStep.connectFail }
        (s3Event "docs" "x.pdf" [])).jobs.map JobSubmission.s3_url
      = ["s3://" ++ "docs" ++ "/" ++ decoded_with_spaces "x.pdf"] ∧
    (lambda_handler { testWorld with db := DBStep.connectFail }
        (s3Event "docs" "x.pdf" [])).result
      = Except.ok (startedResponse "J") :=
  C4_delete_failure_still_submits testWorld testVals "docs" "x.pdf" "J" []
    DBStep.connectFail (fun _ => rfl) rfl rfl (Or.inl rfl)

/-- C7: when the existence probe reports not-found the handler performs no
deletion and still submits the job; when the probe fails for any other
reason the failure propagates out of the invocation with no deletion and
no job. -/
theorem C7_probe_outcomes (w : World) (vals : String → String)
    (bucket key jid : String) (rest : List S3Record)
    (henv : ∀ n, w.env n = some (vals n))
    (hsub : w.submit_job ("s3://" ++ bucket ++ "/" ++ decoded_with_spaces key)
      = some jid) :
    (w.head_object bucket (decoded_with_spaces key) = HeadResult.notFound404 →
      (lambda_handler w (s3Event bucket key rest)).deletions = [] ∧
      (lambda_handler w (s3Event bucket key rest)).jobs.map JobSubmission.s3_url
        = ["s3://" ++ bucket ++ "/" ++ decoded_with_spaces key]) ∧
    (w.head_object bucket (decoded_with_spaces key) = HeadResult.otherFailure →
      (lambda_handler w (s3Event bucket key rest)).deletions = [] ∧
      (lambda_handler w (s3Event bucket key rest)).jobs = [] ∧
      (lambda_handler w (s3Event bucket key rest)).result
        = Except.error HandlerError.probeError) := by
  obtain ⟨j, hj, hjurl⟩ := add_files_total w vals _ jid henv hsub
  constructor
  · intro hnf
    simp [lambda_handler, s3Event, hnf, hj, hjurl]
  · intro ho
    simp [lambda_handler, s3Event, ho]

/-- Witness for C7 in a world whose probe always fails with a non-404
error. -/
theorem C7_probe_outcomes_witness :
    (testWorldProbeFail.head_object "docs" (decoded_with_spaces "x.pdf")
        = HeadResult.notFound404 →
      (lambda_handler testWorldProbeFail (s3Event "docs" "x.pdf" [])).deletions
        = [] ∧
      (lambda_handler testWorldProbeFail (s3Event "docs" "x.pdf" [])).jobs.map
          JobSubmission.s3_url
        = ["s3://" ++ "docs" ++ "/" ++ decoded_with_spaces "x.pdf"]) ∧
    (testWorldProbeFail.head_object "docs" (decoded_with_spaces "x.pdf")
        = HeadResult.otherFailure →
      (lambda_handler testWorldProbeFail (s3Event "docs" "x.pdf" [])).deletions
        = [] ∧
      (lambda_handler testWorldProbeFail (s3Event "docs" "x.pdf" [])).jobs = [] ∧
      (lambda_handler testWorldProbeFail (s3Event "docs" "x.pdf" [])).result
        = Except.error HandlerError.probeError) :=
  C7_probe_outcomes testWorldProbeFail testVals "docs" "x.pdf" "J" []
    (fun _ => rfl) rfl

/-- A bulk world: probe says not-found, listing returns one real object and
one zero-size folder placeholder. -/
def testWorldBulk : World :=
  { testWorld with
      head_object := fun _ _ => HeadResult.notFound404
      list_objects := fun _ _ => some [("in/x.pdf", 10), ("in/", 0)] }

/-- A world where Batch rejects every submission. -/
def testWorldSubmitFail : World :=
  { testWorldNotFound with submit_job := fun _ => none }

lemma add_files_submit_fail (w : World) (vals : String → String) (url : String)
    (henv : ∀ n, w.env n = some (vals n))
    (hsub : w.submit_job url = none) :
    add_files w url = Except.error HandlerError.submitError := by
  simp only [add_files, envGet_total w vals henv, bind, Except.bind, hsub]

lemma processContents_total (w : World) (vals : String → String)
    (jid : String → String) (b : String)
    (henv : ∀ n, w.env n = some (vals n))
    (hsub : ∀ u, w.submit_job u = some (jid u)) :
    ∀ items : List (String × Nat),
      (processContents w b items).2 = none ∧
      (processContents w b items).1.map JobSubmission.s3_url
        = (items.filter (fun it => it.2 != 0)).map
            (fun it => "s3://" ++ b ++ "/" ++ it.1) := by
  intro items
  induction items with
  | nil => simp [processContents]
  | cons hd tl ih =>
    obtain ⟨k, sz⟩ := hd
    by_cases hz : sz = 0
    · simpa [processContents, hz] using ih
    · obtain ⟨j, hj, hjurl⟩ :=
        add_files_total w vals ("s3://" ++ b ++ "/" ++ k)
          (jid ("s3://" ++ b ++ "/" ++ k)) henv
          (hsub ("s3://" ++ b ++ "/" ++ k))
      simp [processContents, hz, hj, hjurl, ih]

/-- A world where Batch is down (every submission raises) but the object
listing still returns one real object and one size-0 placeholder; the
probe reports not-found. -/
def testWorldBatchDown : World :=
  { testWorld with
      head_object := fun _ _ => HeadResult.notFound404
      list_objects := fun _ _ => some [("in/x.pdf", 10), ("in/", 0)]
      submit_job := fun _ => none }

/-- The fifteen environment variables `add_files` reads, in the order of
the `os.environ` accesses on lines 132-144 and 153-154. -/
def addFilesEnvNames : List String :=
  ["MY_AWS_ACCESS_KEY_ID", "MY_AWS_SECRET_ACCESS_KEY", "POSTGRES_DB_NAME",
   "POSTGRES_USER", "POSTGRES_PASSWORD", "POSTGRES_HOST", "POSTGRES_PORT",
   "POSTGRES_TABLE_NAME", "EMBEDDING_PROVIDER",
   "EMBEDDING_MODEL_NAME", "EMBEDDING_PROVIDER_API_KEY",
   "CHUNKING_STRATEGY", "CHUNKING_MAX_CHARACTERS",
   "JOB_QUEUE", "JOB_DEFINITION"]

/-- When at least one of the fifteen variables `add_files` reads is
absent, `add_files` raises the KeyError of the first absent one in read
order, for every S3 URL (the URL never influences the environment
accesses). -/
lemma add_files_missing_env (w : World)
    (hmiss : ∃ n ∈ addFilesEnvNames, w.env n = none) :
    ∃ n', w.env n' = none ∧ ∀ url : String,
      add_files w url = Except.error (HandlerError.keyError n') := by
  cases h1 : w.env "MY_AWS_ACCESS_KEY_ID"
  · exact ⟨_, h1, fun url => by
      simp [add_files, envGet, h1, bind, Except.bind]⟩
  cases h2 : w.env "MY_AWS_SECRET_ACCESS_KEY"
  · exact ⟨_, h2, fun url => by
      simp [add_files, envGet, h1, h2, bind, Except.bind]⟩
  cases h3 : w.env "POSTGRES_DB_NAME"
  · exact ⟨_, h3, fun url => by
      simp [add_files, envGet, h1, h2, h3, bind, Except.bind]⟩
  cases h4 : w.env "POSTGRES_USER"
  · exact ⟨_, h4, fun url => by
      simp [add_files, envGet, h1, h2, h3, h4, bind, Except.bind]⟩
  cases h5 : w.env "POSTGRES_PASSWORD"
  · exact ⟨_, h5, fun url => by
      simp [add_files, envGet, h1, h2, h3, h4, h5, bind, Except.bind]⟩
  cases h6 : w.env "POSTGRES_HOST"
  · exact ⟨_, h6, fun url => by
      simp [add_files, envGet, h1, h2, h3, h4, h5, h6, bind, Except.bind]⟩
  cases h7 : w.env "POSTGRES_PORT"
  · exact ⟨_, h7, fun url => by
      simp [add_files, envGet, h1, h2, h3, h4, h5, h6, h7, bind, Except.bind]⟩
  cases h8 : w.env "POSTGRES_TABLE_NAME"
  · exact ⟨_, h8, fun url => by
      simp [add_files, envGet, h1, h2, h3, h4, h5, h6, h7, h8, bind, Except.bind]⟩
  cases h9 : w.env "EMBEDDING_PROVIDER"
  · exact ⟨_, h9, fun url => by
      simp [add_files, envGet, h1, h2, h3, h4, h5, h6, h7, h8, h9, bind, Except.bind]⟩
  cases h10 : w.env "EMBEDDING_MODEL_NAME"
  · exact ⟨_, h10, fun url => by
      simp [add_files, envGet, h1, h2, h3, h4, h5, h6, h7, h8, h9, h10, bind, Except.bind]⟩
  cases h11 : w.env "EMBEDDING_PROVIDER_API_KEY"
  · exact ⟨_, h11, fun url => by
      simp [add_files, envGet, h1, h2, h3, h4, h5, h6, h7, h8, h9, h10, h11, bind, Except.bind]⟩
  cases h12 : w.env "CHUNKING_STRATEGY"
  · exact ⟨_, h12, fun url => by
      simp [add_files, envGet, h1, h2, h3, h4, h5, h6, h7, h8, h9, h10, h11, h12, bind, Except.bind]⟩
  cases h13 : w.env "CHUNKING_MAX_CHARACTERS"
  · exact ⟨_, h13, fun url => by
      simp [add_files, envGet, h1, h2, h3, h4, h5, h6, h7, h8, h9, h10, h11, h12, h13, bind, Except.bind]⟩
  cases h14 : w.env "JOB_QUEUE"
  · exact ⟨_, h14, fun url => by
      simp [add_files, envGet, h1, h2, h3, h4, h5, h6, h7, h8, h9, h10, h11, h12, h13, h14, bind, Except.bind]⟩
  cases h15 : w.env "JOB_DEFINITION"
  · exact ⟨_, h15, fun url => by
      simp [add_files, envGet, h1, h2, h3, h4, h5, h6, h7, h8, h9, h10, h11, h12, h13, h14, h15, bind, Except.bind]⟩
  obtain ⟨n, hn, hnone⟩ := hmiss
  simp [addFilesEnvNames] at hn
  rcases hn with rfl | rfl | rfl | rfl | rfl | rfl | rfl | rfl | rfl | rfl | rfl | rfl | rfl | rfl | rfl <;>
    simp_all

/-- The six reads of lines 78-83 can only fail with a KeyError. -/
lemma readPostgresEnv_error (w : World) (e : HandlerError)
    (h : readPostgresEnv w = Except.error e) :
    ∃ n, e = HandlerError.keyError n := by
  cases h1 : w.env "POSTGRES_DB_NAME"
  · simp [readPostgresEnv, envGet, h1, bind, Except.bind] at h
    exact ⟨_, h.symm⟩
  cases h2 : w.env "POSTGRES_USER"
  · simp [readPostgresEnv, envGet, h1, h2, bind, Except.bind] at h
    exact ⟨_, h.symm⟩
  cases h3 : w.env "POSTGRES_PASSWORD"
  · simp [readPostgresEnv, envGet, h1, h2, h3, bind, Except.bind] at h
    exact ⟨_, h.symm⟩
  cases h4 : w.env "POSTGRES_HOST"
  · simp [readPostgresEnv, envGet, h1, h2, h3, h4, bind, Except.bind] at h
    exact ⟨_, h.symm⟩
  cases h5 : w.env "POSTGRES_PORT"
  · simp [readPostgresEnv, envGet, h1, h2, h3, h4, h5, bind, Except.bind] at h
    exact ⟨_, h.symm⟩
  cases h6 : w.env "POSTGRES_TABLE_NAME"
  · simp [readPostgresEnv, envGet, h1, h2, h3, h4, h5, h6, bind,
      Except.bind] at h
    exact ⟨_, h.symm⟩
  simp [readPostgresEnv, envGet, h1, h2, h3, h4, h5, h6, bind,
    Except.bind] at h

/-- When `add_files` fails identically for every URL, the bulk loop stops
at the first nonzero-size item with that error and records no job. -/
lemma processContents_all_fail (w : World) (b : String) (e : HandlerError)
    (haf : ∀ url : String, add_files w url = Except.error e) :
    ∀ items : List (String × Nat),
      items.filter (fun it => it.2 != 0) ≠ [] →
      processContents w b items = ([], some e) := by
  intro items
  induction items with
  | nil => intro hne; simp at hne
  | cons hd tl ih =>
    obtain ⟨k, sz⟩ := hd
    intro hne
    by_cases hz : sz = 0
    · have htl : tl.filter (fun it => it.2 != 0) ≠ [] := by
        simpa [hz] using hne
      simp [processContents, hz, ih htl]
    · simp [processContents, hz, haf]

/-- C5: in bulk-listing mode a size-0 object produces no job, a nonzero
object produces exactly one job with URI built from the configured bucket
and the object's full key, and an empty listing yields success with no
jobs. -/
theorem C5_bulk_listing (w : World) (vals : String → String)
    (jid : String → String)
    (henv : ∀ n, w.env n = some (vals n))
    (hsub : ∀ u, w.submit_job u = some (jid u)) :
    (w.list_objects (vals "S3_BUCKET_NAME") (vals "S3_NOTIFICATION_PREFIX")
        = none →
      (lambda_handler w bulkEvent).jobs = [] ∧
      (lambda_handler w bulkEvent).result = Except.ok bulkResponse) ∧
    (∀ items : List (String × Nat),
      w.list_objects (vals "S3_BUCKET_NAME") (vals "S3_NOTIFICATION_PREFIX")
        = some items →
      (lambda_handler w bulkEvent).jobs.map JobSubmission.s3_url
        = (items.filter (fun it => it.2 != 0)).map
            (fun it => "s3://" ++ vals "S3_BUCKET_NAME" ++ "/" ++ it.1) ∧
      (lambda_handler w bulkEvent).result = Except.ok bulkResponse) := by
  constructor
  · intro hlist
    simp [lambda_handler, bulkEvent, envGet_total w vals henv, henv, hlist,
      emptyRun, bulkResponse]
  · intro items hlist
    have hpc := processContents_total w vals jid (vals "S3_BUCKET_NAME")
      henv hsub items
    simp [lambda_handler, bulkEvent, envGet_total w vals henv, henv, hlist,
      hpc.1, hpc.2, bulkResponse]

/-- Witness for C5: one 10-byte object and one 0-byte placeholder yield
exactly the one job for the real object. -/
theorem C5_bulk_listing_witness :
    (testWorldBulk.list_objects (testVals "S3_BUCKET_NAME")
        (testVals "S3_NOTIFICATION_PREFIX") = none →
      (lambda_handler testWorldBulk bulkEvent).jobs = [] ∧
      (lambda_handler testWorldBulk bulkEvent).result
        = Except.ok bulkResponse) ∧
    (∀ items : List (String × Nat),
      testWorldBulk.list_objects (testVals "S3_BUCKET_NAME")
        (testVals "S3_NOTIFICATION_PREFIX") = some items →
      (lambda_handler testWorldBulk bulkEvent).jobs.map JobSubmission.s3_url
        = (items.filter (fun it => it.2 != 0)).map
            (fun it => "s3://" ++ testVals "S3_BUCKET_NAME" ++ "/" ++ it.1) ∧
      (lambda_handler testWorldBulk bulkEvent).result
        = Except.ok bulkResponse) :=
  C5_bulk_listing testWorldBulk testVals (fun _ => "J") (fun _ => rfl)
    (fun _ => rfl)

/-- C9: on every invocation that reaches job assembly — the found and
not-found single-event paths and the bulk-listing loop alike — a
job-submission failure, or a missing required configuration variable, is
not caught locally: the submit error (resp. the KeyError of the first
absent variable) propagates out of the handler, no job is recorded, and
no success response is returned. -/
theorem C9_submission_failures_propagate (w : World) (vals : String → String)
    (bucket key : String) (rest : List S3Record)
    (henv : ∀ n, w.env n = some (vals n))
    (hsub : ∀ u, w.submit_job u = none) :
    (w.head_object bucket (decoded_with_spaces key) = HeadResult.found →
      (lambda_handler w (s3Event bucket key rest)).result
        = Except.error HandlerError.submitError ∧
      (lambda_handler w (s3Event bucket key rest)).jobs = []) ∧
    (w.head_object bucket (decoded_with_spaces key) = HeadResult.notFound404 →
      (lambda_handler w (s3Event bucket key rest)).result
        = Except.error HandlerError.submitError ∧
      (lambda_handler w (s3Event bucket key rest)).jobs = []) ∧
    (∀ items : List (String × Nat),
      w.list_objects (vals "S3_BUCKET_NAME") (vals "S3_NOTIFICATION_PREFIX")
        = some items →
      items.filter (fun it => it.2 != 0) ≠ [] →
      (lambda_handler w bulkEvent).result
        = Except.error HandlerError.submitError ∧
      (lambda_handler w bulkEvent).jobs = []) ∧
    (∀ w' : World, (∃ n ∈ addFilesEnvNames, w'.env n = none) →
      (w'.head_object bucket (decoded_with_spaces key) = HeadResult.found →
        ∃ n', (lambda_handler w' (s3Event bucket key rest)).result
            = Except.error (HandlerError.keyError n') ∧
          (lambda_handler w' (s3Event bucket key rest)).jobs = []) ∧
      (w'.head_object bucket (decoded_with_spaces key)
          = HeadResult.notFound404 →
        ∃ n', (lambda_handler w' (s3Event bucket key rest)).result
            = Except.error (HandlerError.keyError n') ∧
          (lambda_handler w' (s3Event bucket key rest)).jobs = []) ∧
      (∀ (b : String) (items : List (String × Nat)),
        w'.env "S3_BUCKET_NAME" = some b →
        w'.list_objects b ((w'.env "S3_NOTIFICATION_PREFIX").getD "")
          = some items →
        items.filter (fun it => it.2 != 0) ≠ [] →
        ∃ n', (lambda_handler w' bulkEvent).result
            = Except.error (HandlerError.keyError n') ∧
          (lambda_handler w' bulkEvent).jobs = [])) := by
  have haf : ∀ u, add_files w u = Except.error HandlerError.submitError :=
    fun u => add_files_submit_fail w vals u henv (hsub u)
  refine ⟨?_, ?_, ?_, ?_⟩
  · intro hfound
    constructor <;>
      simp [lambda_handler, s3Event, hfound,
        readPostgresEnv_total w vals henv, haf]
  · intro hnf
    constructor <;> simp [lambda_handler, s3Event, hnf, haf]
  · intro items hlist hne
    have hpc := processContents_all_fail w (vals "S3_BUCKET_NAME")
      HandlerError.submitError haf items hne
    constructor <;>
      simp [lambda_handler, bulkEvent, envGet_total w vals henv, henv,
        hlist, hpc]
  · intro w' hmiss
    obtain ⟨n', hnone, hafm⟩ := add_files_missing_env w' hmiss
    refine ⟨?_, ?_, ?_⟩
    · intro hfound
      cases hpg : readPostgresEnv w' with
      | error e =>
        obtain ⟨m, rfl⟩ := readPostgresEnv_error w' e hpg
        exact ⟨m, by simp [lambda_handler, s3Event, hfound, hpg],
          by simp [lambda_handler, s3Event, hfound, hpg]⟩
      | ok tup =>
        obtain ⟨a1, a2, a3, a4, a5, a6⟩ := tup
        exact ⟨n', by simp [lambda_handler, s3Event, hfound, hpg, hafm],
          by simp [lambda_handler, s3Event, hfound, hpg, hafm]⟩
    · intro hnf
      exact ⟨n', by simp [lambda_handler, s3Event, hnf, hafm],
        by simp [lambda_handler, s3Event, hnf, hafm]⟩
    · intro b items hb hlist hne
      have hpc := processContents_all_fail w' b (HandlerError.keyError n')
        hafm items hne
      exact ⟨n', by simp [lambda_handler, bulkEvent, envGet, hb, hlist, hpc],
        by simp [lambda_handler, bulkEvent, envGet, hb, hlist, hpc]⟩

/-- Witness for C9: Batch is down, the probe says not-found and the
listing holds one real object, so both the single-event and the bulk
conclusions are exercised concretely. -/
theorem C9_submission_failures_propagate_witness :
    (testWorldBatchDown.head_object "docs" (decoded_with_spaces "x.pdf")
        = HeadResult.found →
      (lambda_handler testWorldBatchDown (s3Event "docs" "x.pdf" [])).result
        = Except.error HandlerError.submitError ∧
      (lambda_handler testWorldBatchDown (s3Event "docs" "x.pdf" [])).jobs
        = []) ∧
    (testWorldBatchDown.head_object "docs" (decoded_with_spaces "x.pdf")
        = HeadResult.notFound404 →
      (lambda_handler testWorldBatchDown (s3Event "docs" "x.pdf" [])).result
        = Except.error HandlerError.submitError ∧
      (lambda_handler testWorldBatchDown (s3Event "docs" "x.pdf" [])).jobs
        = []) ∧
    (∀ items : List (String × Nat),
      testWorldBatchDown.list_objects (testVals "S3_BUCKET_NAME")
        (testVals "S3_NOTIFICATION_PREFIX") = some items →
      items.filter (fun it => it.2 != 0) ≠ [] →
      (lambda_handler testWorldBatchDown bulkEvent).result
        = Except.error HandlerError.submitError ∧
      (lambda_handler testWorldBatchDown bulkEvent).jobs = []) ∧
    (∀ w' : World, (∃ n ∈ addFilesEnvNames, w'.env n = none) →
      (w'.head_object "docs" (decoded_with_spaces "x.pdf")
          = HeadResult.found →
        ∃ n', (lambda_handler w' (s3Event "docs" "x.pdf" [])).result
            = Except.error (HandlerError.keyError n') ∧
          (lambda_handler w' (s3Event "docs" "x.pdf" [])).jobs = []) ∧
      (w'.head_object "docs" (decoded_with_spaces "x.pdf")
          = HeadResult.notFound404 →
        ∃ n', (lambda_handler w' (s3Event "docs" "x.pdf" [])).result
            = Except.error (HandlerError.keyError n') ∧
          (lambda_handler w' (s3Event "docs" "x.pdf" [])).jobs = []) ∧
      (∀ (b : String) (items : List (String × Nat)),
        w'.env "S3_BUCKET_NAME" = some b →
        w'.list_objects b ((w'.env "S3_NOTIFICATION_PREFIX").getD "")
          = some items →
        items.filter (fun it => it.2 != 0) ≠ [] →
        ∃ n', (lambda_handler w' bulkEvent).result
            = Except.error (HandlerError.keyError n') ∧
          (lambda_handler w' bulkEvent).jobs = [])) :=
  C9_submission_failures_propagate testWorldBatchDown testVals "docs" "x.pdf"
    [] (fun _ => rfl) (fun _ => rfl)

/-- C10: the bulk path's response body is the fixed processed-items
message for every assignment of job identifiers (so it never carries one
and the per-object submission results are discarded), while the
single-event path's response body carries the assigned job identifier. -/
theorem C10_bulk_discards_job_ids (w : World) (vals : String → String)
    (jid : String → String) (bucket key : String) (rest : List S3Record)
    (henv : ∀ n, w.env n = some (vals n))
    (hsub : ∀ u, w.submit_job u = some (jid u)) :
    (∀ items : List (String × Nat),
      w.list_objects (vals "S3_BUCKET_NAME") (vals "S3_NOTIFICATION_PREFIX")
        = some items →
      (lambda_handler w bulkEvent).result = Except.ok bulkResponse) ∧
    (w.head_object bucket (decoded_with_spaces key) = HeadResult.notFound404 →
      (lambda_handler w (s3Event bucket key rest)).result
        = Except.ok (startedResponse
            (jid ("s3://" ++ bucket ++ "/" ++ decoded_with_spaces key)))) := by
  constructor
  · intro items hlist
    have hpc := processContents_total w vals jid (vals "S3_BUCKET_NAME")
      henv hsub items
    simp [lambda_handler, bulkEvent, envGet_total w vals henv, henv, hlist,
      hpc.1, bulkResponse]
  · intro hnf
    obtain ⟨j, hj, hjurl⟩ := add_files_total w vals
      ("s3://" ++ bucket ++ "/" ++ decoded_with_spaces key)
      (jid ("s3://" ++ bucket ++ "/" ++ decoded_with_spaces key)) henv
      (hsub ("s3://" ++ bucket ++ "/" ++ decoded_with_spaces key))
    simp [lambda_handler, s3Event, hnf, hj, startedResponse]

/-- Witness for C10 in the bulk world. -/
theorem C10_bulk_discards_job_ids_witness :
    (∀ items : List (String × Nat),
      testWorldBulk.list_objects (testVals "S3_BUCKET_NAME")
        (testVals "S3_NOTIFICATION_PREFIX") = some items →
      (lambda_handler testWorldBulk bulkEvent).result
        = Except.ok bulkResponse) ∧
    (testWorldBulk.head_object "docs" (decoded_with_spaces "x.pdf")
        = HeadResult.notFound404 →
      (lambda_handler testWorldBulk (s3Event "docs" "x.pdf" [])).result
        = Except.ok (startedResponse "J")) :=
  C10_bulk_discards_job_ids testWorldBulk testVals (fun _ => "J") "docs"
    "x.pdf" [] (fun _ => rfl) (fun _ => rfl)

/-- C3 as stated is false on the code: for bucket docs and raw key
a%2Bb.pdf with the object existing, percent-decoding yields a+b.pdf but
line 72 then replaces the plus with a space, so the deletion filename and
the job URI use "a b.pdf", not "a+b.pdf". -/
theorem C3_counterexample :
    (lambda_handler testWorld (s3Event "docs" "a%2Bb.pdf" [])).deletions.map
        DeletionRequest.filename ≠ ["a+b.pdf"] ∧
    (lambda_handler testWorld (s3Event "docs" "a%2Bb.pdf" [])).jobs.map
        JobSubmission.s3_url ≠ ["s3://docs/a+b.pdf"] := by decide

/-- C3 amended: for bucket docs and raw key a%2Bb.pdf with the object
existing, the handler issues exactly one DeletionRequest with filename
"a b.pdf" against the configured table and then submits exactly one
ProcessingJobRequest with input URI "s3://docs/a b.pdf". -/
theorem C3_amended_scenario :
    (lambda_handler testWorld (s3Event "docs" "a%2Bb.pdf" [])).deletions.map
        DeletionRequest.filename = ["a b.pdf"] ∧
    (lambda_handler testWorld (s3Event "docs" "a%2Bb.pdf" [])).deletions.map
        DeletionRequest.table_name = [testVals "POSTGRES_TABLE_NAME"] ∧
    (lambda_handler testWorld (s3Event "docs" "a%2Bb.pdf" [])).jobs.map
        JobSubmission.s3_url = ["s3://docs/a b.pdf"] ∧
    (lambda_handler testWorld (s3Event "docs" "a%2Bb.pdf" [])).result
      = Except.ok (startedResponse "J") :=
  ⟨by decide, by decide, by decide, by rfl⟩

/-- C8: the claim that `delete_from_postgres` always releases both
resources and never propagates an exception is violated by the code when
`psycopg2.connect` (or `connection.cursor()`) fails: the local `cursor`
was never assigned, so the `finally` block's `if cursor:` raises
UnboundLocalError, which propagates to the caller with neither resource
released.  From `execute` onward the claim's behaviour does hold. -/
theorem C8_cleanup_contract_violated_on_connect_failure :
    (delete_from_postgres DBStep.connectFail).raised = true ∧
    (delete_from_postgres DBStep.connectFail).cursorClosed = false ∧
    (delete_from_postgres DBStep.connectFail).connectionClosed = false ∧
    (delete_from_postgres DBStep.cursorFail).raised = true ∧
    (delete_from_postgres DBStep.cursorFail).connectionClosed = false ∧
    (delete_from_postgres DBStep.executeFail).raised = false ∧
    (delete_from_postgres DBStep.executeFail).errorLogged = true ∧
    (delete_from_postgres DBStep.executeFail).cursorClosed = true ∧
    (delete_from_postgres DBStep.executeFail).connectionClosed = true ∧
    (delete_from_postgres DBStep.commitFail).raised = false ∧
    (delete_from_postgres DBStep.ok).raised = false := by decide

end AddLambda
